import Mathlib

/-!
Verification of the request-orchestration pipeline and the admin command
state machine of the `abc` Telegram bot (`src/main.py`), via a shallow
embedding.  The sqlite tables become association lists, python floats
(`time.time()` values) become rationals, HTTP interactions become explicit
oracle functions, and fallible code returns `Option`.
-/

/-! ### Python `int()` on a stripped string

`int(text)` on text that has already been `.strip()`ped: an optional sign
followed by one or more decimal digits; anything else raises (`none`).
(Python additionally accepts underscores between digits and its own
whitespace stripping; neither form occurs at the call sites modelled here.) -/

def digitVal? (c : Char) : Option Nat :=
  if '0' ≤ c ∧ c ≤ '9' then some (c.toNat - '0'.toNat) else none

def parseDigitsAux : List Char → Nat → Option Nat
  | [], acc => some acc
  | c :: cs, acc =>
    match digitVal? c with
    | some d => parseDigitsAux cs (acc * 10 + d)
    | none => none

def parseDigits : List Char → Option Nat
  | [] => none
  | cs => parseDigitsAux cs 0

def pyInt? (s : String) : Option Int :=
  match s.toList with
  | '+' :: rest => (parseDigits rest).map (fun n => (n : Int))
  | '-' :: rest => (parseDigits rest).map (fun n => -(n : Int))
  | cs => (parseDigits cs).map (fun n => (n : Int))

/-- Python `int()` applied to a float/rational: truncation toward zero. -/
def pyTrunc (q : ℚ) : Int := if 0 ≤ q then ⌊q⌋ else -⌊-q⌋

def isSpaceChar (c : Char) : Bool := c = ' ' ∨ c = '\t' ∨ c = '\n' ∨ c = '\r'

/-- Python `str.strip()`: whitespace removed from both ends. -/
def pyStrip (s : String) : String :=
  String.mk (((s.toList.dropWhile isSpaceChar).reverse.dropWhile isSpaceChar).reverse)

/-- First-match association-list lookup (sqlite `SELECT ... WHERE key = ?`). -/
def lookupKV {α β : Type} [DecidableEq α] : List (α × β) → α → Option β
  | [], _ => none
  | (a, b) :: rest, k => if a = k then some b else lookupKV rest k

/-! ### The sqlite data model (src/main.py lines 64-100)

Tables: `users (user_id PRIMARY KEY, username, last_gen_ts DEFAULT 0)`,
`logs (user_id, username, prompt, images, ts)` append-only,
`bans (user_id PRIMARY KEY)`, `settings (key PRIMARY KEY, value)`. -/

structure UserRow where
  username : String
  last_gen_ts : ℚ
  deriving DecidableEq

structure LogRow where
  user_id : Int
  username : String
  prompt : String
  images : String
  ts : ℚ
  deriving DecidableEq

structure DB where
  users : List (Int × UserRow)
  logs : List LogRow
  bans : List Int
  settings : List (String × String)
  deriving DecidableEq

def emptyDB : DB := ⟨[], [], [], []⟩

/-- `db_get_setting` (lines 102-110): the stored value, else the default. -/
def db_get_setting (db : DB) (key default : String) : String :=
  (lookupKV db.settings key).getD default

/-- `db_set_setting` (lines 112-117): `INSERT OR REPLACE INTO settings`. -/
def db_set_setting (db : DB) (key value : String) : DB :=
  ⟨db.users, db.logs, db.bans, (key, value) :: db.settings.filter (fun kv => kv.1 != key)⟩

/-- `add_user` (lines 119-125): `INSERT OR IGNORE INTO users(user_id, username)`
(the `last_gen_ts` column takes its default 0), then
`UPDATE users SET username = ? WHERE user_id = ?`. -/
def add_user (db : DB) (uid : Int) (username : String) : DB :=
  let inserted : List (Int × UserRow) :=
    match lookupKV db.users uid with
    | some _ => db.users
    | none => db.users ++ [(uid, ⟨username, 0⟩)]
  ⟨inserted.map (fun p => (p.1, if p.1 = uid then ⟨username, p.2.last_gen_ts⟩ else p.2)),
   db.logs, db.bans, db.settings⟩

/-- `set_last_gen` (lines 127-132): `UPDATE users SET last_gen_ts = ? WHERE user_id = ?`. -/
def set_last_gen (db : DB) (uid : Int) (ts : ℚ) : DB :=
  ⟨db.users.map (fun p => (p.1, if p.1 = uid then ⟨p.2.username, ts⟩ else p.2)),
   db.logs, db.bans, db.settings⟩

/-- `get_last_gen` (lines 134-140): the row value, or 0 when there is no row. -/
def get_last_gen (db : DB) (uid : Int) : ℚ :=
  match lookupKV db.users uid with
  | some row => row.last_gen_ts
  | none => 0

/-- `log_entry` (lines 142-148): appends one row with the images joined by
`",".join(images)`; `ts` is the `time.time()` read made inside `log_entry`. -/
def log_entry (db : DB) (uid : Int) (username prompt : String) (images : List String)
    (ts : ℚ) : DB :=
  ⟨db.users, db.logs ++ [⟨uid, username, prompt, String.intercalate "," images, ts⟩],
   db.bans, db.settings⟩

/-- `is_banned` (lines 150-156): `SELECT 1 FROM bans WHERE user_id = ?`. -/
def is_banned (db : DB) (uid : Int) : Bool := decide (uid ∈ db.bans)

/-- `ban_user` (lines 158-163): `INSERT OR IGNORE INTO bans`. -/
def ban_user (db : DB) (uid : Int) : DB :=
  if uid ∈ db.bans then db else ⟨db.users, db.logs, db.bans ++ [uid], db.settings⟩

/-- `unban_user` (lines 165-170): `DELETE FROM bans WHERE user_id = ?`. -/
def unban_user (db : DB) (uid : Int) : DB :=
  ⟨db.users, db.logs, db.bans.filter (fun b => b != uid), db.settings⟩

/-! ### The Digen generation client (src/main.py lines 237-255)

The provider oracle tells, per attempt index, what the single
`requests.post(DIGEN_URL, ...)` exchange for the constructed payload does.
Header/payload construction (`get_digen_headers`, lines 218-248) carries no
control flow and is absorbed into the oracle.  `DigenData` models the
`"data"` sub-dictionary of the decoded JSON; a response whose JSON decodes
to `None`/`{}` (falsy for `not json_resp`) is `Option.none`. -/

structure DigenData where
  id : Option String
  task_id : Option String
  /-- `json_resp.get("data", {}).get("images") or []` with the falsy default folded in. -/
  images : List String
  deriving DecidableEq

inductive ProviderResult where
  /-- `requests.post` returned this status and body; when the status is 200,
  `resp.json()` yielded the given data (`none` for a falsy `None`/`{}` decode). -/
  | http (status : Nat) (body : String) (json : Option DigenData)
  /-- `requests.post` (or `resp.json()`) raised; carries `str(e)`. -/
  | exn (msg : String)
  deriving DecidableEq

/-- What a single provider attempt yields once normalized the way
`digen_request` returns it: `(resp.status_code, resp.text, resp.json() if
resp.status_code == 200 else None)` on a response, `(None, str(e), None)`
on an exception.  Stated from the behaviour the spec would need for its
single observed attempt, to compare against `digen_request`. -/
def providerReply : ProviderResult → Option Nat × String × Option DigenData
  | .http s b j => (some s, b, if s = 200 then j else none)
  | .exn m => (none, m, none)

/-- `digen_request` (lines 237-255).  The body performs one
`requests.post` inside a `try` and returns the normalized triple; the
second component counts how many provider calls were made. -/
def digen_request (provider : Nat → ProviderResult) :
    (Option Nat × String × Option DigenData) × Nat :=
  match provider 0 with
  | .http s b j => ((some s, b, if s = 200 then j else none), 1)
  | .exn m => ((none, m, none), 1)

/-! ### Response-shape normalization inside `generate` (lines 451-463) -/

/-- Python truthiness on an optional string: `None` and `""` are falsy. -/
def truthyStr : Option String → Option String
  | some s => if s = "" then none else some s
  | none => none

/-- `image_id = json_resp.get("data", {}).get("id") or
json_resp.get("data", {}).get("task_id") or None` (line 452). -/
def imageIdOf (d : DigenData) : Option String :=
  match truthyStr d.id with
  | some s => some s
  | none => truthyStr d.task_id

/-- Line 463: URLs derived from a bare identifier by pattern, `range(4)`. -/
def deriveUrls (image_id : String) : List String :=
  (List.range 4).map
    (fun i => "https://liveme-image.s3.amazonaws.com/" ++ image_id ++ "-" ++ toString i ++ ".jpeg")

/-! ### The asset fetcher (lines 208-216 and 465-472)

`async_download` returns the bytes on HTTP 200 and `None` on error; bytes
are modelled as `List Nat`.  `asyncio.gather` returns results in task
order, i.e. in input-URL order.  `for r in results: if r: downloaded.append(r)`
keeps exactly the truthy results (dropping `None` and empty `b""`). -/

/-- Python truthiness on optional bytes: `None` and `b""` are falsy. -/
def truthyBytes : Option (List Nat) → Option (List Nat)
  | some b => if b = [] then none else some b
  | none => none

/-- The `downloaded` list built at lines 466-472 from the gathered,
input-ordered results. -/
def downloadedOf (results : List (Option (List Nat))) : List (List Nat) :=
  results.filterMap truthyBytes

/-! ### User-facing reply texts of `generate` -/

def banned_message : String := "🚫 Siz block qilingansiz."

def rate_limit_message (wait : Int) : String :=
  "⏳ Iltimos yangi rasm generatsiya qilish uchun " ++ toString wait ++ " soniya kuting!"

def accept_message : String :=
  "🔁 Prompt qabul qilindi. Tarjima qilinmoqda va rasm yaratilmoqda..."

/-- Python `f"{status}"` where `status` is an int or `None`. -/
def statusText : Option Nat → String
  | none => "None"
  | some n => toString n

/-- Line 448: `f"❌ API xatolik: {status}\n{text_resp}"` — the reply sent to
the requesting user on a failed generation, carrying the raw provider body. -/
def api_error_message (status : Option Nat) (text_resp : String) : String :=
  "❌ API xatolik: " ++ statusText status ++ "\n" ++ text_resp

def no_assets_message : String := "❌ Rasm ID yoki URL topilmadi API javobida."

def fetch_failed_message : String := "❌ Rasm yuklashda xatolik bo\u0027ldi."

/-! ### The `generate` handler (src/main.py lines 418-531) -/

/-- The handler environment: the boot-time `DEFAULT_RATE_LIMIT`, the
translation capability (`translate_to_en` already folds its failure
fallback into a total function), the generation provider oracle keyed by
the translated prompt, the per-URL fetch oracle, and the three successive
`time.time()` reads (line 433, inside `log_entry`, line 515). -/
structure GenEnv where
  default_rate_limit : Int
  translate : String → String
  provider : String → Nat → ProviderResult
  fetch : String → Option (List Nat)
  now : ℚ
  tLog : ℚ
  tGen : ℚ

inductive GenOutcome where
  | banned
  | rateLimited (wait : Int)
  | apiError (status : Option Nat) (body : String)
  | noAssets
  | fetchFailed
  | ok
  deriving DecidableEq

/-- Observable result of one `generate` run: the final store, the branch
taken, the asset references, the downloaded byte strings, and the plain-text
replies sent to the requester.  Media sends, the regenerate button, the
video derivation and the admin notification are transport effects with no
bearing on the claims and are not recorded. -/
structure GenResult where
  db : DB
  outcome : GenOutcome
  image_urls : List String
  downloaded : List (List Nat)
  replies : List String
  deriving DecidableEq

/-- Lines 465-515: fan-out download of `image_urls`, abort when nothing was
retrieved (line 474), else `log_entry` (line 479) and, after the media and
video sends (video failure is caught and non-fatal), `set_last_gen`
(line 515). -/
def generate_fetch (env : GenEnv) (db : DB) (uid : Int) (username orig_prompt : String)
    (image_urls : List String) : GenResult :=
  let downloaded := downloadedOf (image_urls.map env.fetch)
  if downloaded = [] then
    ⟨db, .fetchFailed, image_urls, [], [accept_message, fetch_failed_message]⟩
  else
    ⟨set_last_gen (log_entry db uid username orig_prompt image_urls env.tLog) uid env.tGen,
     .ok, image_urls, downloaded, [accept_message]⟩

/-- Lines 447-476: handling of one `digen_request` reply `(status, text_resp,
json_resp)` — the `status != 200 or not json_resp` guard (line 447), the
id-or-urls response-shape normalization (lines 451-463), then the fetch
phase. -/
def generate_response (env : GenEnv) (db : DB) (uid : Int) (username orig_prompt : String)
    (reply : Option Nat × String × Option DigenData) : GenResult :=
  match reply.2.2 with
  | some jd =>
    if reply.1 = some 200 then
      match imageIdOf jd with
      | some iid => generate_fetch env db uid username orig_prompt (deriveUrls iid)
      | none =>
        if jd.images = [] then ⟨db, .noAssets, [], [], [accept_message, no_assets_message]⟩
        else generate_fetch env db uid username orig_prompt (jd.images.take 4)
    else ⟨db, .apiError reply.1 reply.2.1, [], [],
          [accept_message, api_error_message reply.1 reply.2.1]⟩
  | none => ⟨db, .apiError reply.1 reply.2.1, [], [],
             [accept_message, api_error_message reply.1 reply.2.1]⟩

/-- Lines 438-463: the admitted part of `generate` — strip, translate, one
`digen_request`, then the response handling. -/
def generate_allowed (env : GenEnv) (db : DB) (uid : Int) (username msg : String) : GenResult :=
  let orig_prompt := pyStrip msg
  let prompt_en := env.translate orig_prompt
  generate_response env db uid username orig_prompt (digen_request (env.provider prompt_en)).1

/-- `generate` (lines 418-531): upsert the user, ban check, rate-limit check
(the limit string re-read from settings on every call; `int()` on an
unparsable stored value raises, hence `none`), then the admitted pipeline. -/
def generate (env : GenEnv) (db0 : DB) (uid : Int) (username msg : String) :
    Option GenResult :=
  let db := add_user db0 uid username
  if is_banned db uid then
    some ⟨db, .banned, [], [], [banned_message]⟩
  else
    match pyInt? (db_get_setting db "rate_limit" (toString env.default_rate_limit)) with
    | none => none
    | some rate_limit =>
      if env.now - get_last_gen db uid < (rate_limit : ℚ) then
        some ⟨db, .rateLimited (pyTrunc ((rate_limit : ℚ) - (env.now - get_last_gen db uid))),
              [], [], [rate_limit_message (pyTrunc ((rate_limit : ℚ) - (env.now - get_last_gen db uid)))]⟩
      else some (generate_allowed env db uid username msg)

/-! ### The admin message processor (src/main.py lines 352-415)

One pending action per admin identity, held in `context.user_data`
(`admin_action`).  The processor consumes the next admin text message for
the pending action; `forwardOk` tells which per-user `forward_message`
calls succeed during a broadcast. -/

inductive AdminAction where
  | broadcast
  | set_limit
  | ban_flow
  | set_token
  deriving DecidableEq

structure AdminStep where
  pending : Option AdminAction
  db : DB
  replies : List String
  deriving DecidableEq

/-- `admin_message_processor` (lines 353-415), entered with `action` pending.
Note where each branch pops `admin_action`: `broadcast` and `set_token`
always pop; `set_limit` and `ban_flow` pop inside the `try`, after
`int(text)` succeeded, so a parse failure leaves the pending action set. -/
def admin_message_processor (forwardOk : Int → Bool) (action : AdminAction)
    (rawText : String) (db : DB) : AdminStep :=
  let text := pyStrip rawText
  match action with
  | .broadcast =>
    let count := (db.users.filter (fun p => forwardOk p.1)).length
    ⟨none, db, ["✅ Forward tugadi. Jo‘natildi: " ++ toString count]⟩
  | .set_limit =>
    match pyInt? text with
    | some v =>
      ⟨none, db_set_setting db "rate_limit" (toString v),
       ["✅ Yangi rate limit saqlandi: " ++ toString v ++ " soniya."]⟩
    | none => ⟨some .set_limit, db, ["❌ Iltimos, butun son kiriting."]⟩
  | .ban_flow =>
    match pyInt? text with
    | some uid =>
      if is_banned db uid then
        ⟨none, unban_user db uid, ["✅ User " ++ toString uid ++ " unban qilindi."]⟩
      else
        ⟨none, ban_user db uid, ["✅ User " ++ toString uid ++ " ban qilindi."]⟩
    | none => ⟨some .ban_flow, db, ["❌ Noto\u0027g\u0027ri ID format. Faqat raqam."]⟩
  | .set_token =>
    if text.contains '|' then
      match text.splitOn "|" with
      | [] => ⟨none, db, []⟩
      | tok :: rest =>
        ⟨none,
         db_set_setting (db_set_setting db "digen_token" (pyStrip tok)) "digen_session"
           (pyStrip (String.intercalate "|" rest)),
         ["✅ Token va session saqlandi."]⟩
    else ⟨none, db_set_setting db "digen_token" (pyStrip text), ["✅ Token saqlandi."]⟩

/-- The store after one `ban_flow` submission. -/
def ban_flow_step (forwardOk : Int → Bool) (text : String) (db : DB) : DB :=
  (admin_message_processor forwardOk .ban_flow text db).db

/-! ### Concrete fixtures used by witnesses and counterexamples -/

def okData : DigenData := ⟨some "abc123", none, []⟩

/-- A provider stub that fails twice (timeouts), then succeeds. -/
def failTwiceStub : Nat → ProviderResult :=
  fun n => if n < 2 then .exn "timeout" else .http 200 "ok" (some okData)

/-- Environment whose provider always answers HTTP 500 with a raw body. -/
def failEnv : GenEnv :=
  ⟨30, fun s => s, fun _ _ => .http 500 "RAW-PROVIDER-BODY" none, fun _ => none, 100, 101, 102⟩

/-- Environment whose provider succeeds with `okData` and whose fetches all succeed. -/
def okEnv : GenEnv :=
  ⟨30, fun s => s, fun _ _ => .http 200 "ok" (some okData), fun _ => some [7], 100, 101, 102⟩

/-- Environment for a rate-limited request: clock at 110. -/
def denyEnv : GenEnv :=
  ⟨30, fun s => s, fun _ _ => .exn "down", fun _ => none, 110, 111, 112⟩

/-- A store with user 7 (last generation at 100) and `rate_limit` set to 30. -/
def rlDB : DB := ⟨[(7, ⟨"u", 100⟩)], [], [], [("rate_limit", "30")]⟩

/-- A store where user 5 is banned and has `last_gen_ts = 0`. -/
def banDB : DB := ⟨[(5, ⟨"u", 0⟩)], [], [5], []⟩

/-- A store with a registered user 7 named "old" with `last_gen_ts = 55`. -/
def nameDB : DB := ⟨[(7, ⟨"old", 55⟩)], [], [], []⟩

/-- The run of `generate denyEnv rlDB 7 "u" "hi"`: denied, 20 seconds left. -/
def c5res : GenResult :=
  ⟨add_user rlDB 7 "u", .rateLimited 20, [], [], [rate_limit_message 20]⟩

/-- The run of `generate failEnv emptyDB 9 "u" "hi"`: provider error surfaced. -/
def c2res : GenResult :=
  ⟨add_user emptyDB 9 "u", .apiError (some 500) "RAW-PROVIDER-BODY", [], [],
   [accept_message, api_error_message (some 500) "RAW-PROVIDER-BODY"]⟩

/-- The run of `generate failEnv emptyDB 8 "u" "hi"`: provider error surfaced. -/
def c7res : GenResult :=
  ⟨add_user emptyDB 8 "u", .apiError (some 500) "RAW-PROVIDER-BODY", [], [],
   [accept_message, api_error_message (some 500) "RAW-PROVIDER-BODY"]⟩

/-- The run of `generate okEnv emptyDB 7 "u" "hi"`: full success. -/
def c8res : GenResult :=
  ⟨set_last_gen (log_entry (add_user emptyDB 7 "u") 7 "u" "hi" (deriveUrls "abc123") 101) 7 102,
   .ok, deriveUrls "abc123", [[7], [7], [7], [7]], [accept_message]⟩

/-! ### Structural lemmas about the store operations -/

theorem lookupKV_map_entry {α β : Type} [DecidableEq α] (l : List (α × β)) (k : α)
    (f : β → β) :
    lookupKV (l.map (fun p => (p.1, if p.1 = k then f p.2 else p.2))) k =
      (lookupKV l k).map f := by
  induction l with
  | nil => rfl
  | cons a l ih =>
    obtain ⟨x, b⟩ := a
    by_cases hx : x = k
    · simp [lookupKV, hx]
    · simp [lookupKV, hx, ih]

theorem lookupKV_append_none {α β : Type} [DecidableEq α] (l₁ l₂ : List (α × β)) (k : α)
    (h : lookupKV l₁ k = none) :
    lookupKV (l₁ ++ l₂) k = lookupKV l₂ k := by
  induction l₁ with
  | nil => rfl
  | cons a l ih =>
    obtain ⟨x, b⟩ := a
    by_cases hx : x = k
    · simp [lookupKV, hx] at h
    · simp only [lookupKV, if_neg hx, List.cons_append] at h ⊢
      exact ih h

theorem lookupKV_add_user (db : DB) (uid : Int) (un : String) :
    lookupKV (add_user db uid un).users uid = some ⟨un, get_last_gen db uid⟩ := by
  simp only [add_user, get_last_gen]
  cases h : lookupKV db.users uid with
  | some row =>
    simp only [h]
    rw [lookupKV_map_entry db.users uid (fun r => ⟨un, r.last_gen_ts⟩), h]
    rfl
  | none =>
    simp only [h]
    rw [List.map_append, lookupKV_append_none]
    · simp [lookupKV]
    · rw [lookupKV_map_entry db.users uid (fun r => ⟨un, r.last_gen_ts⟩), h]
      rfl

@[simp] theorem get_last_gen_add_user (db : DB) (uid : Int) (un : String) :
    get_last_gen (add_user db uid un) uid = get_last_gen db uid := by
  cases h : lookupKV db.users uid with
  | some row => simp [get_last_gen, lookupKV_add_user, h]
  | none => simp [get_last_gen, lookupKV_add_user, h]

@[simp] theorem is_banned_add_user (db : DB) (uid : Int) (un : String) (v : Int) :
    is_banned (add_user db uid un) v = is_banned db v := rfl

@[simp] theorem db_get_setting_add_user (db : DB) (uid : Int) (un : String) (k d : String) :
    db_get_setting (add_user db uid un) k d = db_get_setting db k d := rfl

@[simp] theorem add_user_logs (db : DB) (uid : Int) (un : String) :
    (add_user db uid un).logs = db.logs := rfl

@[simp] theorem log_entry_users (db : DB) (uid : Int) (un p : String) (urls : List String)
    (ts : ℚ) : (log_entry db uid un p urls ts).users = db.users := rfl

theorem get_last_gen_set_last_gen (db : DB) (uid : Int) (t : ℚ)
    (h : (lookupKV db.users uid).isSome = true) :
    get_last_gen (set_last_gen db uid t) uid = t := by
  simp only [set_last_gen, get_last_gen]
  rw [lookupKV_map_entry db.users uid (fun r => ⟨r.username, t⟩)]
  cases hh : lookupKV db.users uid with
  | none => simp [hh] at h
  | some row => simp [hh]

@[simp] theorem is_banned_ban_user_self (db : DB) (uid : Int) :
    is_banned (ban_user db uid) uid = true := by
  by_cases h : uid ∈ db.bans
  · simp [ban_user, is_banned, h]
  · simp [ban_user, is_banned, h]

@[simp] theorem is_banned_unban_user_self (db : DB) (uid : Int) :
    is_banned (unban_user db uid) uid = false := by
  simp [unban_user, is_banned, List.mem_filter]

/-! ### Branch characterization of the `generate` pipeline -/

theorem generate_fetch_cases (env : GenEnv) (db : DB) (uid : Int) (un orig : String)
    (urls : List String) :
    generate_fetch env db uid un orig urls =
        ⟨db, .fetchFailed, urls, [], [accept_message, fetch_failed_message]⟩ ∨
      (∃ dl, dl ≠ [] ∧ generate_fetch env db uid un orig urls =
        ⟨set_last_gen (log_entry db uid un orig urls env.tLog) uid env.tGen, .ok, urls, dl,
         [accept_message]⟩) := by
  simp only [generate_fetch]
  by_cases h : downloadedOf (urls.map env.fetch) = []
  · left
    rw [if_pos h]
  · right
    exact ⟨_, h, by rw [if_neg h]⟩

theorem generate_response_cases (env : GenEnv) (db : DB) (uid : Int) (un orig : String)
    (reply : Option Nat × String × Option DigenData) :
    (∃ st b, generate_response env db uid un orig reply =
        ⟨db, .apiError st b, [], [], [accept_message, api_error_message st b]⟩) ∨
      generate_response env db uid un orig reply =
        ⟨db, .noAssets, [], [], [accept_message, no_assets_message]⟩ ∨
      (∃ urls, generate_response env db uid un orig reply =
        ⟨db, .fetchFailed, urls, [], [accept_message, fetch_failed_message]⟩) ∨
      (∃ urls dl, dl ≠ [] ∧ generate_response env db uid un orig reply =
        ⟨set_last_gen (log_entry db uid un orig urls env.tLog) uid env.tGen, .ok,
         urls, dl, [accept_message]⟩) := by
  obtain ⟨st, body, js⟩ := reply
  cases js with
  | none => exact Or.inl ⟨st, body, rfl⟩
  | some jd =>
    by_cases h200 : st = some 200
    · simp only [generate_response]
      rw [if_pos h200]
      cases him : imageIdOf jd with
      | some iid =>
        rcases generate_fetch_cases env db uid un orig (deriveUrls iid) with
          hF | ⟨dl, hdl, hE⟩
        · exact Or.inr (Or.inr (Or.inl ⟨deriveUrls iid, hF⟩))
        · exact Or.inr (Or.inr (Or.inr ⟨deriveUrls iid, dl, hdl, hE⟩))
      | none =>
        by_cases himg : jd.images = []
        · rw [if_pos himg]
          exact Or.inr (Or.inl rfl)
        · rw [if_neg himg]
          rcases generate_fetch_cases env db uid un orig (jd.images.take 4) with
            hF | ⟨dl, hdl, hE⟩
          · exact Or.inr (Or.inr (Or.inl ⟨jd.images.take 4, hF⟩))
          · exact Or.inr (Or.inr (Or.inr ⟨jd.images.take 4, dl, hdl, hE⟩))
    · simp only [generate_response]
      rw [if_neg h200]
      exact Or.inl ⟨st, body, rfl⟩

theorem generate_allowed_cases (env : GenEnv) (db : DB) (uid : Int) (un msg : String) :
    (∃ st b, generate_allowed env db uid un msg =
        ⟨db, .apiError st b, [], [], [accept_message, api_error_message st b]⟩) ∨
      generate_allowed env db uid un msg =
        ⟨db, .noAssets, [], [], [accept_message, no_assets_message]⟩ ∨
      (∃ urls, generate_allowed env db uid un msg =
        ⟨db, .fetchFailed, urls, [], [accept_message, fetch_failed_message]⟩) ∨
      (∃ urls dl, dl ≠ [] ∧ generate_allowed env db uid un msg =
        ⟨set_last_gen (log_entry db uid un (pyStrip msg) urls env.tLog) uid env.tGen, .ok,
         urls, dl, [accept_message]⟩) :=
  generate_response_cases env db uid un (pyStrip msg)
    (digen_request (env.provider (env.translate (pyStrip msg)))).1

theorem generate_cases (env : GenEnv) (db0 : DB) (uid : Int) (un msg : String) (r : GenResult)
    (hr : generate env db0 uid un msg = some r) :
    (is_banned db0 uid = true ∧ r = ⟨add_user db0 uid un, .banned, [], [], [banned_message]⟩) ∨
      (∃ w, r = ⟨add_user db0 uid un, .rateLimited w, [], [], [rate_limit_message w]⟩) ∨
      (∃ st b, r = ⟨add_user db0 uid un, .apiError st b, [], [],
        [accept_message, api_error_message st b]⟩) ∨
      r = ⟨add_user db0 uid un, .noAssets, [], [], [accept_message, no_assets_message]⟩ ∨
      (∃ urls, r = ⟨add_user db0 uid un, .fetchFailed, urls, [],
        [accept_message, fetch_failed_message]⟩) ∨
      (∃ urls dl, dl ≠ [] ∧ r =
        ⟨set_last_gen (log_entry (add_user db0 uid un) uid un (pyStrip msg) urls env.tLog) uid
          env.tGen, .ok, urls, dl, [accept_message]⟩) := by
  simp only [generate] at hr
  split at hr
  · obtain rfl := (Option.some.inj hr).symm
    rename_i hban
    exact Or.inl ⟨hban, rfl⟩
  · rename_i hban
    split at hr
    · exact Option.noConfusion hr
    · rename_i rl hrl
      split at hr
      · obtain rfl := (Option.some.inj hr).symm
        exact Or.inr (Or.inl ⟨_, rfl⟩)
      · obtain rfl := (Option.some.inj hr).symm
        rcases generate_allowed_cases env (add_user db0 uid un) uid un msg with
          ⟨st, b, hE⟩ | hE | ⟨urls, hE⟩ | ⟨urls, dl, hdl, hE⟩
        · exact Or.inr (Or.inr (Or.inl ⟨st, b, hE⟩))
        · exact Or.inr (Or.inr (Or.inr (Or.inl hE)))
        · exact Or.inr (Or.inr (Or.inr (Or.inr (Or.inl ⟨urls, hE⟩))))
        · exact Or.inr (Or.inr (Or.inr (Or.inr (Or.inr ⟨urls, dl, hdl, hE⟩))))

/-! ### The claims -/

/-- Claim C1, counterexample: against a provider stub that fails twice and then
succeeds, `digen_request` makes exactly 1 call — not 3 — and returns the first
attempt's failure, not the third attempt's success. -/
theorem c1_retry_counterexample :
    (digen_request failTwiceStub).2 = 1 ∧ ¬(digen_request failTwiceStub).2 = 3 ∧
      (digen_request failTwiceStub).1 = (none, "timeout", none) ∧
      ¬(digen_request failTwiceStub).1 = (some 200, "ok", some okData) := by decide

/-- Claim C1, amended: for every generation request the Generation Client makes
exactly one attempt against the provider, with no retry and no backoff; the
result is that single attempt's normalized status/body/JSON. -/
theorem c1_single_attempt (provider : Nat → ProviderResult) :
    digen_request provider = (providerReply (provider 0), 1) := by
  cases hp : provider 0 <;> simp [digen_request, providerReply, hp]

/-- Claim C3, counterexample: with a pending `set_limit` action, the admin
message `"abc"` (invalid integer) does NOT clear the pending state — it stays
`set_limit` — whereas a valid `"45"` does clear it. -/
theorem c3_clear_counterexample :
    (admin_message_processor (fun _ => true) .set_limit "abc" emptyDB).pending =
      some AdminAction.set_limit ∧
    ¬(admin_message_processor (fun _ => true) .set_limit "abc" emptyDB).pending = none ∧
    (admin_message_processor (fun _ => true) .set_limit "45" emptyDB).pending = none := by
  decide

/-- Claim C3, amended: on the next admin text message, `broadcast` and
`set_token` pending states always clear; `set_limit` and `ban_flow` clear
exactly when the stripped text parses as an integer — invalid content reports
an error but leaves the pending action set. -/
theorem c3_pending_clearing (forwardOk : Int → Bool) (action : AdminAction) (text : String)
    (db : DB) :
    (admin_message_processor forwardOk action text db).pending =
      match action with
      | .broadcast => none
      | .set_token => none
      | .set_limit =>
        if (pyInt? (pyStrip text)).isSome then none else some AdminAction.set_limit
      | .ban_flow =>
        if (pyInt? (pyStrip text)).isSome then none else some AdminAction.ban_flow := by
  cases action
  · rfl
  · simp only [admin_message_processor]
    cases h : pyInt? (pyStrip text) <;> simp [h]
  · simp only [admin_message_processor]
    cases h : pyInt? (pyStrip text) with
    | none => simp [h]
    | some uid =>
      simp only [h, Option.isSome_some, if_true]
      split <;> rfl
  · simp only [admin_message_processor]
    split
    · split <;> rfl
    · rfl

/-- Claim C4, counterexample: with 4 references where fetch 2 fails, the
fetcher's output is the compacted `[bytes1, bytes3, bytes4]` — length 3, with
no `absent` placeholder in position 2 — and when fetch 1 fails the first
downloaded asset (the video source) is reference 2's bytes, not reference 1's. -/
theorem c4_absent_counterexample :
    downloadedOf [some [1], none, some [3], some [4]] = [[1], [3], [4]] ∧
      ¬(downloadedOf [some [1], none, some [3], some [4]]).length = 4 ∧
      (downloadedOf [none, some [2], some [3], some [4]]).head? = some [2] := by decide

/-- Claim C4, amended: the fetcher's output keeps exactly the successful
(truthy) results in input order, dropping failures instead of recording
`absent` placeholders: a reference whose fetch succeeds with non-empty bytes
`b` appears in the output at the index equal to the number of successes before
it, with value `b`. -/
theorem c4_order_compacted (results : List (Option (List Nat))) (i : Nat) (b : List Nat)
    (h : results[i]? = some (some b)) (hb : b ≠ []) :
    (downloadedOf results)[(downloadedOf (results.take i)).length]? = some b := by
  induction results generalizing i with
  | nil => simp at h
  | cons r rs ih =>
    cases i with
    | zero =>
      simp only [List.getElem?_cons_zero, Option.some.injEq] at h
      subst h
      simp [downloadedOf, truthyBytes, hb]
    | succ i =>
      simp only [List.getElem?_cons_succ] at h
      have hrec := ih i h
      cases htr : truthyBytes r with
      | none =>
        simpa [downloadedOf, List.take_succ_cons, List.filterMap_cons, htr] using hrec
      | some c =>
        simpa [downloadedOf, List.take_succ_cons, List.filterMap_cons, htr] using hrec

/-- Claim C4, witness: the amended order statement evaluated at the claim's own
example (4 refs, fetch 2 failing, looking up ref 3). -/
theorem c4_witness :
    ([some [1], none, some [3], some [4]] : List (Option (List Nat)))[2]? = some (some [3]) ∧
      ([3] : List Nat) ≠ [] ∧
      (downloadedOf [some [1], none, some [3], some [4]])[(downloadedOf
        (([some [1], none, some [3], some [4]] : List (Option (List Nat))).take 2)).length]? =
        some [3] :=
  ⟨by decide, by decide, c4_order_compacted [some [1], none, some [3], some [4]] 2 [3]
    (by decide) (by decide)⟩

/-- Claim C9: consuming a `ban_flow` message with a numeric identity toggles
that identity's ban state; starting from unbanned, one submission bans, two
leave it unbanned, three leave it banned. -/
theorem c9_ban_toggle (forwardOk : Int → Bool) (text : String) (uid : Int) (db : DB)
    (hp : pyInt? (pyStrip text) = some uid) (hb : is_banned db uid = false) :
    (∀ d : DB, is_banned (ban_flow_step forwardOk text d) uid = !is_banned d uid) ∧
      is_banned (ban_flow_step forwardOk text db) uid = true ∧
      is_banned (ban_flow_step forwardOk text (ban_flow_step forwardOk text db)) uid = false ∧
      is_banned (ban_flow_step forwardOk text (ban_flow_step forwardOk text
        (ban_flow_step forwardOk text db))) uid = true := by
  have htog : ∀ d : DB, is_banned (ban_flow_step forwardOk text d) uid = !is_banned d uid := by
    intro d
    simp only [ban_flow_step, admin_message_processor, hp]
    by_cases h : is_banned d uid = true
    · simp [h]
    · simp only [Bool.not_eq_true] at h
      simp [h]
  refine ⟨htog, ?_, ?_, ?_⟩ <;> simp [htog, hb]

/-- Claim C9, witness: the toggle chain evaluated for identity 42 starting from
an empty ban table. -/
theorem c9_witness :
    is_banned (ban_flow_step (fun _ => true) "42" emptyDB) 42 = true ∧
      is_banned (ban_flow_step (fun _ => true) "42"
        (ban_flow_step (fun _ => true) "42" emptyDB)) 42 = false ∧
      is_banned (ban_flow_step (fun _ => true) "42" (ban_flow_step (fun _ => true) "42"
        (ban_flow_step (fun _ => true) "42" emptyDB))) 42 = true := by
  have h := c9_ban_toggle (fun _ => true) "42" 42 emptyDB (by decide) (by decide)
  exact ⟨h.2.1, h.2.2.1, h.2.2.2⟩

/-- Claim C10: for an already-registered user, `add_user` updates only the
display name and leaves `last_gen_ts` unchanged. -/
theorem c10_upsert_preserves_ts (db : DB) (uid : Int) (newName : String) (row : UserRow)
    (h : lookupKV db.users uid = some row) :
    lookupKV (add_user db uid newName).users uid = some ⟨newName, row.last_gen_ts⟩ ∧
      get_last_gen (add_user db uid newName) uid = row.last_gen_ts := by
  have h2 := lookupKV_add_user db uid newName
  have hg : get_last_gen db uid = row.last_gen_ts := by simp [get_last_gen, h]
  rw [hg] at h2
  exact ⟨h2, by rw [get_last_gen_add_user, hg]⟩

/-- Claim C10, witness: re-registering user 7 (name "old", `last_gen_ts` 55)
under the name "new" keeps `last_gen_ts = 55`. -/
theorem c10_witness :
    lookupKV nameDB.users 7 = some ⟨"old", 55⟩ ∧
      lookupKV (add_user nameDB 7 "new").users 7 = some ⟨"new", 55⟩ ∧
      get_last_gen (add_user nameDB 7 "new") 7 = 55 := by
  have h := c10_upsert_preserves_ts nameDB 7 "new" ⟨"old", 55⟩ (by decide)
  exact ⟨by decide, h.1, h.2⟩

/-! ### Admission-branch evaluation lemmas -/

theorem generate_limited (env : GenEnv) (db0 : DB) (uid : Int) (un msg : String) (rl : Int)
    (hb : is_banned db0 uid = false)
    (hrl : pyInt? (db_get_setting db0 "rate_limit" (toString env.default_rate_limit)) = some rl)
    (hlt : env.now - get_last_gen db0 uid < (rl : ℚ)) :
    generate env db0 uid un msg = some ⟨add_user db0 uid un,
      .rateLimited (pyTrunc ((rl : ℚ) - (env.now - get_last_gen db0 uid))), [], [],
      [rate_limit_message (pyTrunc ((rl : ℚ) - (env.now - get_last_gen db0 uid)))]⟩ := by
  simp only [generate, is_banned_add_user, db_get_setting_add_user, get_last_gen_add_user,
    hb, hrl]
  rw [if_neg Bool.false_ne_true, if_pos hlt]

theorem generate_not_limited (env : GenEnv) (db0 : DB) (uid : Int) (un msg : String) (rl : Int)
    (hb : is_banned db0 uid = false)
    (hrl : pyInt? (db_get_setting db0 "rate_limit" (toString env.default_rate_limit)) = some rl)
    (hge : ¬env.now - get_last_gen db0 uid < (rl : ℚ)) :
    generate env db0 uid un msg =
      some (generate_allowed env (add_user db0 uid un) uid un msg) := by
  simp only [generate, is_banned_add_user, db_get_setting_add_user, get_last_gen_add_user,
    hb, hrl]
  rw [if_neg Bool.false_ne_true, if_neg hge]

/-- Claim C5: for a non-banned user, with the rate limit parsed fresh from
settings, admission is denied with `retry_after = pyTrunc (rate_limit -
(now - T))` exactly when `now - T < rate_limit`; at or past the boundary
(`rate_limit ≤ now - T`, including equality) the request is never
rate-limited. -/
theorem c5_rate_limit (env : GenEnv) (db0 : DB) (uid : Int) (un msg : String) (r : GenResult)
    (rl : Int)
    (hr : generate env db0 uid un msg = some r)
    (hb : is_banned db0 uid = false)
    (hrl : pyInt? (db_get_setting db0 "rate_limit" (toString env.default_rate_limit)) =
      some rl) :
    ((env.now - get_last_gen db0 uid < (rl : ℚ)) ↔
      r.outcome = .rateLimited (pyTrunc ((rl : ℚ) - (env.now - get_last_gen db0 uid)))) ∧
    ((rl : ℚ) ≤ env.now - get_last_gen db0 uid → ∀ w, r.outcome ≠ .rateLimited w) := by
  by_cases hlt : env.now - get_last_gen db0 uid < (rl : ℚ)
  · rw [generate_limited env db0 uid un msg rl hb hrl hlt] at hr
    obtain rfl := (Option.some.inj hr).symm
    exact ⟨⟨fun _ => rfl, fun _ => hlt⟩, fun hge w hw => absurd hlt (not_lt.mpr hge)⟩
  · rw [generate_not_limited env db0 uid un msg rl hb hrl hlt] at hr
    obtain rfl := (Option.some.inj hr).symm
    have hne : ∀ w, (generate_allowed env (add_user db0 uid un) uid un msg).outcome ≠
        GenOutcome.rateLimited w := by
      intro w hw
      rcases generate_allowed_cases env (add_user db0 uid un) uid un msg with
        ⟨st, b, hE⟩ | hE | ⟨urls, hE⟩ | ⟨urls, dl, hdl, hE⟩ <;> rw [hE] at hw <;> simp at hw
    exact ⟨⟨fun h => absurd h hlt, fun h => absurd h (hne _)⟩, fun _ => hne⟩

/-- Claim C5, witness: user 7 (last generation 100, rate limit 30) requesting
at 110 is denied with `retry_after = 20`. -/
theorem c5_witness :
    generate denyEnv rlDB 7 "u" "hi" = some c5res ∧
    ((denyEnv.now - get_last_gen rlDB 7 < ((30 : Int) : ℚ)) ↔
      c5res.outcome = .rateLimited (pyTrunc (((30 : Int) : ℚ) -
        (denyEnv.now - get_last_gen rlDB 7)))) ∧
    (((30 : Int) : ℚ) ≤ denyEnv.now - get_last_gen rlDB 7 →
      ∀ w, c5res.outcome ≠ .rateLimited w) := by
  have hgl : get_last_gen rlDB 7 = 100 := by decide
  have hrun : generate denyEnv rlDB 7 "u" "hi" = some c5res := by
    rw [generate_limited denyEnv rlDB 7 "u" "hi" 30 (by decide) (by decide)
      (by rw [hgl]; norm_num [denyEnv])]
    norm_num [c5res, pyTrunc, denyEnv, hgl]
  exact ⟨hrun, c5_rate_limit denyEnv rlDB 7 "u" "hi" c5res 30 hrun (by decide) (by decide)⟩

/-- Claim C6: for a banned identity, `generate` denies with the ban message
before any rate-limit check and regardless of `last_gen_ts`. -/
theorem c6_ban_overrides (env : GenEnv) (db0 : DB) (uid : Int) (un msg : String)
    (hb : is_banned db0 uid = true) :
    generate env db0 uid un msg =
      some ⟨add_user db0 uid un, .banned, [], [], [banned_message]⟩ := by
  simp [generate, hb]

/-- Claim C6, witness: user 5 is banned with `last_gen_ts = 0` (which would
pass the rate limit) and is still denied. -/
theorem c6_witness :
    is_banned banDB 5 = true ∧ get_last_gen banDB 5 = 0 ∧
      generate denyEnv banDB 5 "u" "hi" =
        some ⟨add_user banDB 5 "u", .banned, [], [], [banned_message]⟩ :=
  ⟨by decide, by decide, c6_ban_overrides denyEnv banDB 5 "u" "hi" (by decide)⟩

/-- Claim C7: a run that ends in any non-success outcome leaves the user's
`last_gen_ts` unchanged; only a fully successful run sets it (to the
`time.time()` read at line 515). -/
theorem c7_timestamp_frame (env : GenEnv) (db0 : DB) (uid : Int) (un msg : String)
    (r : GenResult) (hr : generate env db0 uid un msg = some r) :
    (r.outcome ≠ .ok → get_last_gen r.db uid = get_last_gen db0 uid) ∧
    (r.outcome = .ok → get_last_gen r.db uid = env.tGen) := by
  rcases generate_cases env db0 uid un msg r hr with
    ⟨_, rfl⟩ | ⟨w, rfl⟩ | ⟨st, b, rfl⟩ | rfl | ⟨urls, rfl⟩ | ⟨urls, dl, hdl, rfl⟩
  · exact ⟨fun _ => get_last_gen_add_user db0 uid un, fun hok => by simp at hok⟩
  · exact ⟨fun _ => get_last_gen_add_user db0 uid un, fun hok => by simp at hok⟩
  · exact ⟨fun _ => get_last_gen_add_user db0 uid un, fun hok => by simp at hok⟩
  · exact ⟨fun _ => get_last_gen_add_user db0 uid un, fun hok => by simp at hok⟩
  · exact ⟨fun _ => get_last_gen_add_user db0 uid un, fun hok => by simp at hok⟩
  · refine ⟨fun hne => absurd rfl hne, fun _ => ?_⟩
    have hs : (lookupKV (log_entry (add_user db0 uid un) uid un (pyStrip msg) urls
        env.tLog).users uid).isSome = true := by
      rw [log_entry_users, lookupKV_add_user]
      rfl
    exact get_last_gen_set_last_gen _ uid env.tGen hs

/-- Claim C7, witness: a run failing at the generation stage (provider 500)
leaves `last_gen_ts` unchanged. -/
theorem c7_witness :
    generate failEnv emptyDB 8 "u" "hi" = some c7res ∧
    (c7res.outcome ≠ .ok → get_last_gen c7res.db 8 = get_last_gen emptyDB 8) ∧
    (c7res.outcome = .ok → get_last_gen c7res.db 8 = failEnv.tGen) := by
  have hrun : generate failEnv emptyDB 8 "u" "hi" = some c7res := by
    rw [generate_not_limited failEnv emptyDB 8 "u" "hi" 30 (by decide) (by decide)
      (by rw [show get_last_gen emptyDB 8 = 0 from by decide]; norm_num [failEnv])]
    rw [show generate_allowed failEnv (add_user emptyDB 8 "u") 8 "u" "hi" = c7res from by decide]
  exact ⟨hrun, c7_timestamp_frame failEnv emptyDB 8 "u" "hi" c7res hrun⟩

/-- Claim C8: a Log Entry is appended exactly when at least one asset was
fetched: runs with no downloaded asset (failures anywhere, total fetch failure
included) leave the log unchanged, and a run with at least one downloaded
asset appends exactly one entry carrying the original (untranslated, stripped)
prompt and the asset references. -/
theorem c8_log_iff_fetch (env : GenEnv) (db0 : DB) (uid : Int) (un msg : String)
    (r : GenResult) (hr : generate env db0 uid un msg = some r) :
    (r.downloaded = [] → r.db.logs = db0.logs) ∧
    (r.downloaded ≠ [] → r.db.logs = db0.logs ++
      [⟨uid, un, pyStrip msg, String.intercalate "," r.image_urls, env.tLog⟩]) ∧
    (r.db.logs ≠ db0.logs ↔ r.downloaded ≠ []) := by
  rcases generate_cases env db0 uid un msg r hr with
    ⟨_, rfl⟩ | ⟨w, rfl⟩ | ⟨st, b, rfl⟩ | rfl | ⟨urls, rfl⟩ | ⟨urls, dl, hdl, rfl⟩
  · exact ⟨fun _ => rfl, fun hne => absurd rfl hne, fun hq => absurd rfl hq, fun hq => absurd rfl hq⟩
  · exact ⟨fun _ => rfl, fun hne => absurd rfl hne, fun hq => absurd rfl hq, fun hq => absurd rfl hq⟩
  · exact ⟨fun _ => rfl, fun hne => absurd rfl hne, fun hq => absurd rfl hq, fun hq => absurd rfl hq⟩
  · exact ⟨fun _ => rfl, fun hne => absurd rfl hne, fun hq => absurd rfl hq, fun hq => absurd rfl hq⟩
  · exact ⟨fun _ => rfl, fun hne => absurd rfl hne, fun hq => absurd rfl hq, fun hq => absurd rfl hq⟩
  · refine ⟨fun h0 => absurd h0 hdl, fun _ => rfl, fun _ => hdl, fun _ => ?_⟩
    show db0.logs ++ [⟨uid, un, pyStrip msg, String.intercalate "," urls, env.tLog⟩] ≠ db0.logs
    intro hcontra
    have hlen := congrArg List.length hcontra
    simp at hlen

set_option maxRecDepth 10000 in
/-- Claim C8, witness: a fully successful run (provider id `abc123`, all 4
fetches succeed) appends exactly one log entry with the original prompt and
the 4 derived URLs. -/
theorem c8_witness :
    generate okEnv emptyDB 7 "u" "hi" = some c8res ∧
    (c8res.downloaded = [] → c8res.db.logs = emptyDB.logs) ∧
    (c8res.downloaded ≠ [] → c8res.db.logs = emptyDB.logs ++
      [⟨7, "u", pyStrip "hi", String.intercalate "," c8res.image_urls, okEnv.tLog⟩]) ∧
    (c8res.db.logs ≠ emptyDB.logs ↔ c8res.downloaded ≠ []) := by
  have hrun : generate okEnv emptyDB 7 "u" "hi" = some c8res := by
    rw [generate_not_limited okEnv emptyDB 7 "u" "hi" 30 (by decide) (by decide)
      (by rw [show get_last_gen emptyDB 7 = 0 from by decide]; norm_num [okEnv])]
    rw [show generate_allowed okEnv (add_user emptyDB 7 "u") 7 "u" "hi" = c8res from by decide]
  exact ⟨hrun, c8_log_iff_fetch okEnv emptyDB 7 "u" "hi" c8res hrun⟩

/-- Claim C2, counterexample: a failed generation run by an ordinary
(non-admin) requester gets a reply that embeds the raw provider response body
verbatim — the reply is `accept` then `"❌ API xatolik: 500\nRAW-PROVIDER-BODY"`,
which ends with the raw body. -/
theorem c2_leak_counterexample :
    generate failEnv emptyDB 9 "u" "hi" = some c2res ∧
    c2res.replies = [accept_message, "❌ API xatolik: 500\nRAW-PROVIDER-BODY"] ∧
    (∃ p, "❌ API xatolik: 500\nRAW-PROVIDER-BODY" = p ++ "RAW-PROVIDER-BODY") := by
  have hrun : generate failEnv emptyDB 9 "u" "hi" = some c2res := by
    rw [generate_not_limited failEnv emptyDB 9 "u" "hi" 30 (by decide) (by decide)
      (by rw [show get_last_gen emptyDB 9 = 0 from by decide]; norm_num [failEnv])]
    rw [show generate_allowed failEnv (add_user emptyDB 9 "u") 9 "u" "hi" = c2res from by decide]
  exact ⟨hrun, by decide, ⟨"❌ API xatolik: 500\n", rfl⟩⟩

/-- Claim C2, amended: for every failed generation request, the user-facing
error reply includes the raw provider response body (preceded by the status),
for any requester — admin or not. -/
theorem c2_error_body_sent (env : GenEnv) (db0 : DB) (uid : Int) (un msg : String)
    (r : GenResult) (st : Option Nat) (b : String)
    (hr : generate env db0 uid un msg = some r) (ho : r.outcome = .apiError st b) :
    api_error_message st b ∈ r.replies ∧ ∃ p, api_error_message st b = p ++ b := by
  rcases generate_cases env db0 uid un msg r hr with
    ⟨_, rfl⟩ | ⟨w, rfl⟩ | ⟨st', b', rfl⟩ | rfl | ⟨urls, rfl⟩ | ⟨urls, dl, hdl, rfl⟩
  · simp at ho
  · simp at ho
  · have hinj : st' = st ∧ b' = b := by simpa using ho
    obtain ⟨rfl, rfl⟩ := hinj
    exact ⟨by simp, ⟨"❌ API xatolik: " ++ statusText st' ++ "\n", rfl⟩⟩
  · simp at ho
  · simp at ho
  · simp at ho

/-- Claim C2, witness: the amended statement evaluated on the provider-500 run. -/
theorem c2_witness :
    generate failEnv emptyDB 9 "u" "hi" = some c2res ∧
    (api_error_message (some 500) "RAW-PROVIDER-BODY" ∈ c2res.replies ∧
      ∃ p, api_error_message (some 500) "RAW-PROVIDER-BODY" = p ++ "RAW-PROVIDER-BODY") := by
  have hrun : generate failEnv emptyDB 9 "u" "hi" = some c2res := by
    rw [generate_not_limited failEnv emptyDB 9 "u" "hi" 30 (by decide) (by decide)
      (by rw [show get_last_gen emptyDB 9 = 0 from by decide]; norm_num [failEnv])]
    rw [show generate_allowed failEnv (add_user emptyDB 9 "u") 9 "u" "hi" = c2res from by decide]
  exact ⟨hrun, c2_error_body_sent failEnv emptyDB 9 "u" "hi" c2res (some 500)
    "RAW-PROVIDER-BODY" hrun (by decide)⟩
